import Mathlib

set_option maxRecDepth 4000

/-!
Verification of the feed-to-page pipeline of `generate_news.py`.

The embedding models:
* an XML element tree (the result of `xml.etree.ElementTree.fromstring`),
* Python string helpers used by the script (`str.strip`, `html.escape`),
* `parse_items` (extraction of bounded, escaped article records), and
* `build_html` (deterministic rendering of the two locale pages).

The standard-library RFC-822 date parser (`email.utils.parsedate_to_datetime`
composed with `strftime` of a fixed format) is not part of the repository, so
the extraction step is parameterised by a function
`dateParse : String -> Option String` returning the formatted date on success
and `none` when parsing raises.  Likewise `ET.fromstring` is parameterised as
a function from raw bytes to `Option XMLElem` (`none` meaning the bytes are
not well-formed markup, in which case the exception propagates out of
`parse_items` as the MalformedFeedError of the specification).
-/

/-- The double-quote character. -/
def quoteC : Char := Char.ofNat 34

/-- The apostrophe character. -/
def aposC : Char := Char.ofNat 39

/-- An XML element as produced by `xml.etree.ElementTree`: a tag, an
attribute list, optional text content, and child elements.  Namespaced tags
(such as media:content for the namespace registered in `parse_items`) are
kept in their prefixed form. -/
inductive XMLElem where
  | mk (tag : String) (attrs : List (String × String)) (text : Option String)
       (children : List XMLElem)

def XMLElem.tag : XMLElem → String
  | .mk t _ _ _ => t

def XMLElem.attrs : XMLElem → List (String × String)
  | .mk _ a _ _ => a

def XMLElem.text : XMLElem → Option String
  | .mk _ _ x _ => x

def XMLElem.children : XMLElem → List XMLElem
  | .mk _ _ _ c => c

/-- `Element.find(tag)` for a simple child tag: the first direct child with
the given tag, in document order. -/
def findChild (e : XMLElem) (t : String) : Option XMLElem :=
  e.children.find? (fun c => c.tag == t)

/-- `Element.findtext(tag, default='')`: the text of the first matching
child (empty string when the element has no text), or the default empty
string when there is no such child. -/
def findtext (e : XMLElem) (t : String) : String :=
  match findChild e t with
  | some c => c.text.getD ""
  | none => ""

/-- `element.attrib.get(key)`: look up an attribute. -/
def attrGet (e : XMLElem) (k : String) : Option String :=
  (e.attrs.find? (fun p => p.1 == k)).map Prod.snd

/-- `root.findall('./channel/item')`: every item child of every channel
child of the root, in document order. -/
def findall_channel_item (root : XMLElem) : List XMLElem :=
  List.flatten ((root.children.filter (fun c => c.tag == "channel")).map
    (fun ch => ch.children.filter (fun c => c.tag == "item")))

/-- Whitespace as removed by Python `str.strip()` (the ASCII whitespace
characters; the feeds at hand contain no exotic Unicode spaces). -/
def isPySpace (c : Char) : Bool :=
  c = ' ' || c = Char.ofNat 9 || c = Char.ofNat 10 || c = Char.ofNat 13 ||
  c = Char.ofNat 11 || c = Char.ofNat 12

/-- `str.strip()` on the underlying character list. -/
def stripList (l : List Char) : List Char :=
  ((l.dropWhile isPySpace).reverse.dropWhile isPySpace).reverse

/-- Python `str.strip()`. -/
def pyStrip (s : String) : String :=
  String.mk (stripList s.data)

/-- The per-character action of Python `html.escape` (with its default
`quote=True`): ampersand, angle brackets and both quote characters are
replaced by entities, every other character is kept.  `html.escape`
replaces the ampersand first, so the sequential replacements of the
library function act exactly characterwise on the original string. -/
def escChar (c : Char) : List Char :=
  if c = '&' then ['&', 'a', 'm', 'p', ';']
  else if c = '<' then ['&', 'l', 't', ';']
  else if c = '>' then ['&', 'g', 't', ';']
  else if c = quoteC then ['&', 'q', 'u', 'o', 't', ';']
  else if c = aposC then ['&', '#', 'x', '2', '7', ';']
  else [c]

/-- `html.escape` on a character list. -/
def escList : List Char → List Char
  | [] => []
  | c :: cs => escChar c ++ escList cs

/-- Python `html.escape(s)` (default `quote=True`). -/
def htmlEscape (s : String) : String :=
  String.mk (escList s.data)

/-- One extracted news article, `parse_items`' record. -/
structure ArticleRecord where
  title : String
  link : String
  description : String
  date : String
  image : Option String
deriving DecidableEq

/-- `ARTICLE_LIMIT`: number of articles to display on the news page. -/
def ARTICLE_LIMIT : Int := 10

/-- The body of the `for item in root.findall('./channel/item')` loop:
build one record from one item element.  `dateParse` stands for the
composition `parsedate_to_datetime` + `strftime('%d %B %Y')`, returning
`none` when the standard-library parser raises, in which case the raw
`pubDate` string is used unmodified (the except-branch of the code).
The image is kept only when the first media:content child carries a
truthy (present and non-empty) url attribute, mirroring
`html.escape(image_url) if image_url else None`. -/
def extractItem (dateParse : String → Option String) (item : XMLElem) :
    ArticleRecord :=
  let title := pyStrip (findtext item "title")
  let link := pyStrip (findtext item "link")
  let description := pyStrip (findtext item "description")
  let pub_date_raw := findtext item "pubDate"
  let date_str :=
    match dateParse pub_date_raw with
    | some s => s
    | none => pub_date_raw
  let image_url : Option String :=
    match findChild item "media:content" with
    | some mc => attrGet mc "url"
    | none => none
  { title := htmlEscape title
    link := htmlEscape link
    description := htmlEscape description
    date := htmlEscape date_str
    image :=
      match image_url with
      | some u => if u = "" then none else some (htmlEscape u)
      | none => none }

/-- The extraction loop of `parse_items`: records are appended one by one
and the loop breaks as soon as `len(items) >= limit`, the check being made
after each append. -/
def extractLoop (dateParse : String → Option String) (limit : Int) :
    List XMLElem → List ArticleRecord → List ArticleRecord
  | [], acc => acc
  | item :: rest, acc =>
    let acc2 := acc ++ [extractItem dateParse item]
    if (acc2.length : Int) ≥ limit then acc2
    else extractLoop dateParse limit rest acc2

/-- The error raised by `parse_items` when `ET.fromstring` cannot parse the
bytes: the MalformedFeedError of the specification. -/
inductive FeedError where
  | malformed
deriving DecidableEq

/-- Record extraction from an already-parsed root element. -/
def parseRecords (dateParse : String → Option String) (root : XMLElem)
    (limit : Int) : List ArticleRecord :=
  extractLoop dateParse limit (findall_channel_item root) []

/-- `parse_items(feed_data, limit=ARTICLE_LIMIT)`.  `fromstring` stands for
`ET.fromstring`; when it fails (`none`) the exception propagates and no
record list is produced. -/
def parse_items (fromstring : List Nat → Option XMLElem)
    (dateParse : String → Option String) (feed_data : List Nat)
    (limit : Int := ARTICLE_LIMIT) : Except FeedError (List ArticleRecord) :=
  match fromstring feed_data with
  | none => .error .malformed
  | some root => .ok (parseRecords dateParse root limit)

example :
    htmlEscape "a&b<c>" = "a&amp;b&lt;c&gt;" := by decide

example : pyStrip "  a b  " = "a b" := by decide

/-- `'\n'.join(parts)`. -/
def joinSep (sep : String) : List String → String
  | [] => ""
  | [x] => x
  | x :: y :: ys => x ++ sep ++ joinSep sep (y :: ys)

/-- The call-to-action label of the Read More button, per locale. -/
def ctaLabel (rtl : Bool) : String :=
  if rtl then "بیشتر بخوانید" else "Read More"

/-- The optional image line of a card: emitted only when `art['image']` is
truthy (present and non-empty). -/
def imgLines (img : Option String) : List String :=
  match img with
  | some u =>
    if u = "" then []
    else ["<img src=\"" ++ u ++ "\" class=\"card-img-top\" alt=\"News image\">"]
  | none => []

/-- The `card` list built for one article inside `build_html`, line by
line, exactly as the Python code appends them. -/
def cardLines (rtl : Bool) (art : ArticleRecord) : List String :=
  ["<div class=\"col-md-6 col-lg-4 mb-4\">",
   "<div class=\"card h-100 shadow-sm\">"]
  ++ imgLines art.image
  ++ ["<div class=\"card-body\">",
      "<h5 class=\"card-title\">" ++ art.title ++ "</h5>",
      "<p class=\"card-text small text-muted\">" ++ art.date ++ "</p>",
      "<p class=\"card-text\">" ++ art.description ++ "</p>",
      "<a href=\"" ++ art.link ++ "\" target=\"_blank\" class=\"btn btn-primary btn-sm\">"
        ++ ctaLabel rtl ++ "</a>",
      "</div>",
      "</div>",
      "</div>"]

/-- One article card: `'\n'.join(card)`. -/
def build_card (rtl : Bool) (art : ArticleRecord) : String :=
  joinSep "\n" (cardLines rtl art)

/-- The fixed document text of `build_html` that precedes the interpolated
`cards_joined`, with the per-locale strings of the `trans` table filled
in.  This is the f-string of the source up to the cards hole. -/
def pageHead (rtl : Bool) : String :=
  "\n<!DOCTYPE html>\n<html lang=\""
  ++ (if rtl then "fa" else "en")
  ++ "\" dir=\""
  ++ (if rtl then "rtl" else "ltr")
  ++ "\">\n<head>\n  <meta charset=\"UTF-8\">\n  <meta name=\"viewport\" content=\"width=device-width, initial-scale=1.0\">\n  <title>"
  ++ (if rtl then "آخرین اخبار و مقالات" else "Latest Articles")
  ++ " | HotelNews</title>\n  <meta name=\"description\" content=\""
  ++ (if rtl then "تمامی اخبار از منابع معتبر هتلداری و گردشگری در این بخش گردآوری شده است." else "Hand‑curated news and articles from trusted hospitality and tourism sources.")
  ++ "\">\n  <link rel=\"stylesheet\" href=\"https://cdn.jsdelivr.net/npm/bootstrap@5.3.2/dist/css/bootstrap.min.css\">\n  <link rel=\"stylesheet\" href=\"https://cdn.jsdelivr.net/npm/bootstrap-icons@1.10.5/font/bootstrap-icons.css\">\n  <link rel=\"stylesheet\" href=\"styles.css\">\n</head>\n<body>\n  <nav class=\"navbar navbar-expand-lg navbar-light bg-light shadow-sm\">\n    <div class=\"container\">\n      <a class=\"navbar-brand fw-bold\" href=\"#\">"
  ++ (if rtl then "هتل نیوز" else "HotelNews")
  ++ "</a>\n      <button class=\"navbar-toggler\" type=\"button\" data-bs-toggle=\"collapse\" data-bs-target=\"#navbarNav\" aria-controls=\"navbarNav\" aria-expanded=\"false\" aria-label=\"Toggle navigation\">\n        <span class=\"navbar-toggler-icon\"></span>\n      </button>\n      <div class=\"collapse navbar-collapse\" id=\"navbarNav\">\n        <ul class=\"navbar-nav ms-auto\">\n          <li class=\"nav-item\"><a class=\"nav-link\" href=\""
  ++ (if rtl then "index-fa.html" else "index.html")
  ++ "\">"
  ++ (if rtl then "خانه" else "Home")
  ++ "</a></li>\n          <li class=\"nav-item\"><a class=\"nav-link active\" aria-current=\"page\" href=\"#\">"
  ++ (if rtl then "مقالات" else "Latest Articles")
  ++ "</a></li>\n          <li class=\"nav-item\"><a class=\"nav-link\" href=\""
  ++ (if rtl then "index-fa.html#features" else "index.html#features")
  ++ "\">"
  ++ (if rtl then "ویژگی‌ها" else "Features")
  ++ "</a></li>\n          <li class=\"nav-item\"><a class=\"nav-link\" href=\""
  ++ (if rtl then "index-fa.html#about" else "index.html#about")
  ++ "\">"
  ++ (if rtl then "درباره ما" else "About")
  ++ "</a></li>\n          <li class=\"nav-item\"><a class=\"nav-link\" href=\""
  ++ (if rtl then "index.html" else "index-fa.html")
  ++ "\">"
  ++ (if rtl then "English" else "فارسی")
  ++ "</a></li>\n        </ul>\n      </div>\n    </div>\n  </nav>\n  <header class=\"bg-primary text-white py-5\">\n    <div class=\"container text-center\">\n      <h1 class=\"fw-bold\">"
  ++ (if rtl then "آخرین اخبار و مقالات" else "Latest Articles")
  ++ "</h1>\n      <p class=\"lead\">"
  ++ (if rtl then "تمامی اخبار از منابع معتبر هتلداری و گردشگری در این بخش گردآوری شده است." else "Hand‑curated news and articles from trusted hospitality and tourism sources.")
  ++ "</p>\n    </div>\n  </header>\n  <main class=\"py-4\">\n    <div class=\"container\">\n      <div class=\"row\">\n        "

/-- The fixed document text of `build_html` that follows the interpolated
`cards_joined` (closing markup, footer, scripts). -/
def pageTail (rtl : Bool) : String :=
  "\n      </div>\n    </div>\n  </main>\n  <footer class=\"bg-dark text-white py-3\">\n    <div class=\"container d-flex justify-content-between align-items-center\">\n      <span>&copy; 2025 HotelNews. "
  ++ (if rtl then "تمام حقوق محفوظ است." else "All rights reserved.")
  ++ "</span>\n      <span><a href=\"#\" class=\"text-white me-2\"><i class=\"bi bi-facebook\"></i></a><a href=\"#\" class=\"text-white me-2\"><i class=\"bi bi-twitter\"></i></a><a href=\"#\" class=\"text-white\"><i class=\"bi bi-instagram\"></i></a></span>\n    </div>\n  </footer>\n  <script type=\"text/javascript\">\n    window.$crisp=[];window.CRISP_WEBSITE_ID=\"your-website-id\";\n    (function()\x7bvar d=document,s=d.createElement(\"script\");s.src=\"https://client.crisp.chat/l.js\";s.async=1;d.getElementsByTagName(\"head\")[0].appendChild(s);\x7d)();\n  </script>\n  <script type=\"text/javascript\">\n    document.addEventListener(\x27contextmenu\x27, event => event.preventDefault());\n    document.onselectstart = () => \x7b event.preventDefault(); \x7d\n  </script>\n  <script src=\"https://cdn.jsdelivr.net/npm/bootstrap@5.3.2/dist/js/bootstrap.bundle.min.js\"></script>\n</body>\n</html>\n"

/-- `build_html(items, lang)`: the complete rendered document, a pure
function of the record sequence and the language code (`rtl = lang == 'fa'`
exactly as in the source). -/
def build_html (items : List ArticleRecord) (lang : String) : String :=
  pageHead (lang == "fa")
  ++ joinSep "\n" (items.map (build_card (lang == "fa")))
  ++ pageTail (lang == "fa")

/-- Boolean list-prefix test. -/
def pfxb : List Char → List Char → Bool
  | [], _ => true
  | _ :: _, [] => false
  | a :: as, b :: bs => a = b && pfxb as bs

/-- Does the list start with the tail of one of the five entities that
`html.escape` produces (the part after the ampersand)? -/
def entTailB (l : List Char) : Bool :=
  pfxb ['a', 'm', 'p', ';'] l || pfxb ['l', 't', ';'] l ||
  pfxb ['g', 't', ';'] l || pfxb ['q', 'u', 'o', 't', ';'] l ||
  pfxb ['#', 'x', '2', '7', ';'] l

/-- Every ampersand in the list begins one of the five escape entities. -/
def ampOk : List Char → Bool
  | [] => true
  | c :: cs => (if c = '&' then entTailB cs else true) && ampOk cs

/-- The character is not a raw markup-significant character other than the
ampersand (which is checked separately through `ampOk`). -/
def okChar (c : Char) : Bool :=
  !(c = '<' || c = '>' || c = quoteC || c = aposC)

/-- The string contains no unescaped markup-significant character: no angle
bracket or quote at all, and every ampersand opens an escape entity. -/
def noRawMarkup (s : String) : Bool :=
  s.data.all okChar && ampOk s.data

/-- Does the pattern occur (as a contiguous run) somewhere in the list? -/
def subAt (p : List Char) : List Char → Bool
  | [] => pfxb p []
  | c :: cs => pfxb p (c :: cs) || subAt p cs

/-- Executable substring test: does `pat` occur contiguously in `s`? -/
def strHas (s pat : String) : Bool :=
  subAt pat.data s.data

/-- `pat` occurs contiguously in `s`. -/
def SubStr (pat s : String) : Prop :=
  ∃ p q, s = p ++ pat ++ q

theorem strAppend_assoc (a b c : String) : a ++ b ++ c = a ++ (b ++ c) := by
  cases a with
  | mk la =>
    cases b with
    | mk lb =>
      cases c with
      | mk lc =>
        show String.mk (la ++ lb ++ lc) = String.mk (la ++ (lb ++ lc))
        rw [List.append_assoc]

theorem strAppend_nil (a : String) : a ++ "" = a := by
  cases a with
  | mk la =>
    show String.mk (la ++ []) = String.mk la
    rw [List.append_nil]

theorem subStr_self (pat : String) : SubStr pat pat := by
  refine ⟨"", "", ?_⟩
  have h : "" ++ pat ++ "" = pat := by
    rw [strAppend_assoc, strAppend_nil]
    rfl
  exact h.symm

theorem subStr_appL (a : String) {pat s : String} (h : SubStr pat s) :
    SubStr pat (a ++ s) := by
  obtain ⟨p, q, rfl⟩ := h
  exact ⟨a ++ p, q, by rw [strAppend_assoc a, strAppend_assoc a]⟩

theorem subStr_appR (b : String) {pat s : String} (h : SubStr pat s) :
    SubStr pat (s ++ b) := by
  obtain ⟨p, q, rfl⟩ := h
  exact ⟨p, q ++ b, by rw [strAppend_assoc (p ++ pat)]⟩

theorem subStr_trans {a b c : String} (h1 : SubStr a b) (h2 : SubStr b c) :
    SubStr a c := by
  obtain ⟨u, v, rfl⟩ := h2
  exact subStr_appR v (subStr_appL u h1)

theorem subStr_join (sep : String) :
    ∀ (l : List String) (x : String), x ∈ l → SubStr x (joinSep sep l) := by
  intro l
  induction l with
  | nil => intro x hx; cases hx
  | cons y ys ih =>
    intro x hx
    cases hx with
    | head =>
      cases ys with
      | nil => exact subStr_self y
      | cons z zs =>
        show SubStr y (y ++ sep ++ joinSep sep (z :: zs))
        exact subStr_appR _ (subStr_appR _ (subStr_self y))
    | tail _ h =>
      cases ys with
      | nil => cases h
      | cons z zs =>
        show SubStr x (y ++ sep ++ joinSep sep (z :: zs))
        rw [strAppend_assoc]
        exact subStr_appL _ (subStr_appL _ (ih x h))

theorem pfxb_ex : ∀ (p s : List Char), pfxb p s = true → ∃ r, s = p ++ r := by
  intro p
  induction p with
  | nil => intro s _; exact ⟨s, rfl⟩
  | cons a as ih =>
    intro s h
    cases s with
    | nil => simp [pfxb] at h
    | cons b bs =>
      simp only [pfxb, Bool.and_eq_true, decide_eq_true_eq] at h
      obtain ⟨rfl, h2⟩ := h
      obtain ⟨r, rfl⟩ := ih bs h2
      exact ⟨r, rfl⟩

theorem subAt_ex (p : List Char) :
    ∀ (s : List Char), subAt p s = true → ∃ u v, s = u ++ (p ++ v) := by
  intro s
  induction s with
  | nil =>
    intro h
    obtain ⟨r, hr⟩ := pfxb_ex p [] h
    exact ⟨[], r, hr⟩
  | cons c cs ih =>
    intro h
    simp only [subAt, Bool.or_eq_true] at h
    rcases h with h | h
    · obtain ⟨r, hr⟩ := pfxb_ex p (c :: cs) h
      exact ⟨[], r, hr⟩
    · obtain ⟨u, v, huv⟩ := ih h
      exact ⟨c :: u, v, by rw [huv]; rfl⟩

theorem strHas_subStr (s pat : String) (h : strHas s pat = true) :
    SubStr pat s := by
  cases s with
  | mk d =>
    cases pat with
    | mk pd =>
      obtain ⟨u, v, huv⟩ := subAt_ex pd d h
      refine ⟨String.mk u, String.mk v, ?_⟩
      show String.mk d = String.mk (u ++ pd ++ v)
      rw [huv, List.append_assoc]

theorem escChar_all_okChar (c : Char) : (escChar c).all okChar = true := by
  unfold escChar
  by_cases h1 : c = '&'
  · rw [if_pos h1]; decide
  · rw [if_neg h1]
    by_cases h2 : c = '<'
    · rw [if_pos h2]; decide
    · rw [if_neg h2]
      by_cases h3 : c = '>'
      · rw [if_pos h3]; decide
      · rw [if_neg h3]
        by_cases h4 : c = quoteC
        · rw [if_pos h4]; decide
        · rw [if_neg h4]
          by_cases h5 : c = aposC
          · rw [if_pos h5]; decide
          · rw [if_neg h5]
            simp [okChar, h2, h3, h4, h5]

theorem ampOk_escChar (c : Char) (r : List Char) (hr : ampOk r = true) :
    ampOk (escChar c ++ r) = true := by
  unfold escChar
  by_cases h1 : c = '&'
  · rw [if_pos h1]
    simp [ampOk, entTailB, pfxb, hr]
  · rw [if_neg h1]
    by_cases h2 : c = '<'
    · rw [if_pos h2]
      simp [ampOk, entTailB, pfxb, hr]
    · rw [if_neg h2]
      by_cases h3 : c = '>'
      · rw [if_pos h3]
        simp [ampOk, entTailB, pfxb, hr]
      · rw [if_neg h3]
        by_cases h4 : c = quoteC
        · rw [if_pos h4]
          simp [ampOk, entTailB, pfxb, hr]
        · rw [if_neg h4]
          by_cases h5 : c = aposC
          · rw [if_pos h5]
            simp [ampOk, entTailB, pfxb, hr]
          · rw [if_neg h5]
            simp [ampOk, h1, hr]

theorem escList_all_okChar (l : List Char) : (escList l).all okChar = true := by
  induction l with
  | nil => decide
  | cons c cs ih =>
    simp only [escList, List.all_append, Bool.and_eq_true]
    exact ⟨escChar_all_okChar c, ih⟩

theorem ampOk_escList (l : List Char) : ampOk (escList l) = true := by
  induction l with
  | nil => decide
  | cons c cs ih => exact ampOk_escChar c _ ih

theorem noRawMarkup_htmlEscape (s : String) :
    noRawMarkup (htmlEscape s) = true := by
  show ((escList s.data).all okChar && ampOk (escList s.data)) = true
  rw [escList_all_okChar, ampOk_escList]
  rfl

theorem escChar_ne_nil (c : Char) : escChar c ≠ [] := by
  unfold escChar
  split
  · simp
  split
  · simp
  split
  · simp
  split
  · simp
  split
  · simp
  simp

theorem htmlEscape_ne_empty (s : String) (h : s ≠ "") : htmlEscape s ≠ "" := by
  cases s with
  | mk d =>
    cases d with
    | nil => exact absurd rfl h
    | cons c cs =>
      show String.mk (escList (c :: cs)) ≠ String.mk []
      intro hEq
      have h2 : escList (c :: cs) = [] := by injection hEq
      rw [escList] at h2
      rcases List.append_eq_nil.mp h2 with ⟨h3, _⟩
      exact escChar_ne_nil c h3

theorem extractLoop_spec (dateParse : String → Option String) (limit : Int) :
    ∀ (l : List XMLElem) (acc : List ArticleRecord),
      (acc.length : Int) < limit →
      extractLoop dateParse limit l acc
        = acc ++ (l.take (limit.toNat - acc.length)).map (extractItem dateParse) := by
  intro l
  induction l with
  | nil => intro acc _; simp [extractLoop]
  | cons x xs ih =>
    intro acc hacc
    rw [extractLoop]
    by_cases hge : ((acc ++ [extractItem dateParse x]).length : Int) ≥ limit
    · rw [if_pos hge]
      have hlen : (acc ++ [extractItem dateParse x]).length = acc.length + 1 := by
        simp
      have h1 : limit.toNat - acc.length = 1 := by
        rw [hlen] at hge
        push_cast at hge
        omega
      rw [h1]
      simp
    · rw [if_neg hge]
      have hlt2 : ((acc ++ [extractItem dateParse x]).length : Int) < limit :=
        lt_of_not_ge hge
      rw [ih _ hlt2]
      have hlen : (acc ++ [extractItem dateParse x]).length = acc.length + 1 := by
        simp
      rw [hlen]
      have hk : limit.toNat - acc.length = (limit.toNat - (acc.length + 1)) + 1 := by
        rw [hlen] at hlt2
        push_cast at hlt2
        omega
      rw [hk, List.take_succ_cons]
      simp

theorem parseRecords_take (dateParse : String → Option String) (root : XMLElem)
    (limit : Int) (h : 1 ≤ limit) :
    parseRecords dateParse root limit
      = ((findall_channel_item root).take limit.toNat).map (extractItem dateParse) := by
  unfold parseRecords
  have h0 : (([] : List ArticleRecord).length : Int) < limit := by
    simp
    omega
  rw [extractLoop_spec dateParse limit _ [] h0]
  simp

/-- A date parser that fails on every input, standing for the behaviour of
the standard parser on non-RFC-822 strings. -/
def dpNone : String → Option String := fun _ => none

/-- A leaf element carrying only text. -/
def textElem (tag s : String) : XMLElem := .mk tag [] (some s) []

/-- An item whose publication date is the unparseable string a&b. -/
def itemAmp : XMLElem := .mk "item" [] none [textElem "pubDate" "a&b"]

/-- An item whose publication date is the unparseable string with
surrounding whitespace. -/
def itemWS : XMLElem := .mk "item" [] none [textElem "pubDate" " x "]

/-- An item with every field present, including a thumbnail. -/
def itemFull : XMLElem :=
  .mk "item" [] none
    [textElem "title" " Hello & Co ", textElem "link" "http://x/1",
     textElem "description" "World", textElem "pubDate" "not-a-date",
     .mk "media:content" [("url", "http://x/i.jpg")] none []]

/-- An item with no children at all. -/
def itemBare : XMLElem := .mk "item" [] none []

/-- An RSS root with one channel holding the given items. -/
def feedRoot (its : List XMLElem) : XMLElem :=
  .mk "rss" [] none [.mk "channel" [] none its]

/-- A three-item sample feed. -/
def sampleFeed : XMLElem := feedRoot [itemBare, itemAmp, itemFull]

/-- Claim C1: for every well-formed feed whose channel contains N items and
every positive limit, parse returns exactly min(N, limit) records, and they
are exactly the records of the first min(N, limit) items in document order;
the cap is enforced during extraction so the output never exceeds the
limit. -/
theorem claim_C1 (fromDate : String → Option String) (root : XMLElem)
    (feedBytes : List Nat) (limit : Int) (h : 1 ≤ limit) :
    parse_items (fun _ => some root) fromDate feedBytes limit
      = .ok (((findall_channel_item root).take limit.toNat).map (extractItem fromDate))
    ∧ (((findall_channel_item root).take limit.toNat).map (extractItem fromDate)).length
      = min (findall_channel_item root).length limit.toNat := by
  constructor
  · show Except.ok (parseRecords fromDate root limit) = _
    rw [parseRecords_take fromDate root limit h]
  · rw [List.length_map, List.length_take]
    exact Nat.min_comm _ _

/-- Witness for C1 at a concrete three-item feed and limit 2. -/
theorem claim_C1_witness :
    (1 : Int) ≤ 2
    ∧ parse_items (fun _ => some sampleFeed) dpNone [] 2
        = .ok (((findall_channel_item sampleFeed).take (2 : Int).toNat).map (extractItem dpNone))
    ∧ (((findall_channel_item sampleFeed).take (2 : Int).toNat).map (extractItem dpNone)).length
        = min (findall_channel_item sampleFeed).length (2 : Int).toNat :=
  ⟨by decide, (claim_C1 dpNone sampleFeed [] 2 (by decide)).1,
   (claim_C1 dpNone sampleFeed [] 2 (by decide)).2⟩

/-- Claim C2 counterexample: the claim says the date field of a record whose
publication date fails parsing equals the raw source string verbatim; on
the item whose raw pubDate is a&b (which the RFC-822 parser rejects) the
code stores the HTML-escaped string, which differs from the raw string. -/
theorem claim_C2_counterexample :
    (extractItem dpNone itemAmp).date = "a&amp;b"
    ∧ (extractItem dpNone itemAmp).date ≠ "a&b" := by
  constructor
  · decide
  · decide

/-- Claim C2 (amended): for every item whose publication-date string fails
parsing, the record's date field equals the HTML-escaping of the raw source
string (hence the raw string itself whenever it contains no
markup-significant character), extraction of the record is never aborted,
and the fallback is non-empty whenever the raw string is non-empty. -/
theorem claim_C2_amended (fromDate : String → Option String) (item : XMLElem)
    (hfail : fromDate (findtext item "pubDate") = none) :
    (extractItem fromDate item).date = htmlEscape (findtext item "pubDate")
    ∧ (findtext item "pubDate" ≠ "" → (extractItem fromDate item).date ≠ "") := by
  have hdate : (extractItem fromDate item).date
      = htmlEscape (findtext item "pubDate") := by
    simp [extractItem, hfail]
  exact ⟨hdate, fun hne => by rw [hdate]; exact htmlEscape_ne_empty _ hne⟩

/-- Witness for the amended C2 at a concrete failing date string. -/
theorem claim_C2_witness :
    (extractItem dpNone itemWS).date = htmlEscape (findtext itemWS "pubDate") :=
  (claim_C2_amended dpNone itemWS rfl).1

/-- Claim C5: whenever the byte sequence is not well-formed markup (no root
element can be produced), parse raises MalformedFeedError and returns no
record list at all. -/
theorem claim_C5 (fromstring : List Nat → Option XMLElem)
    (fromDate : String → Option String) (feedBytes : List Nat) (limit : Int)
    (h : fromstring feedBytes = none) :
    parse_items fromstring fromDate feedBytes limit = .error .malformed
    ∧ ∀ l, parse_items fromstring fromDate feedBytes limit ≠ .ok l := by
  have h1 : parse_items fromstring fromDate feedBytes limit
      = .error .malformed := by
    simp [parse_items, h]
  refine ⟨h1, fun l hl => ?_⟩
  rw [h1] at hl
  cases hl

/-- Witness for C5 on a concrete unparseable byte sequence. -/
theorem claim_C5_witness :
    parse_items (fun _ => none) dpNone [0] 10 = .error .malformed :=
  (claim_C5 (fun _ => none) dpNone [0] 10 rfl).1

/-- Claim C7: render is deterministic, a pure function of the record
sequence and the locale; identical inputs give byte-identical documents. -/
theorem claim_C7 (items1 items2 : List ArticleRecord) (lang1 lang2 : String)
    (h1 : items1 = items2) (h2 : lang1 = lang2) :
    build_html items1 lang1 = build_html items2 lang2 := by
  rw [h1, h2]

/-- Witness for C7 at a concrete input. -/
theorem claim_C7_witness : build_html [] "en" = build_html [] "en" :=
  claim_C7 [] [] "en" "en" rfl rfl

/-- Claim C8: an item missing the optional title, link or description still
yields a record in which the missing field defaults to the empty string,
and such an item never aborts the parse: the record is still produced. -/
theorem claim_C8 (fromDate : String → Option String) (item : XMLElem) :
    (findChild item "title" = none → (extractItem fromDate item).title = "")
    ∧ (findChild item "link" = none → (extractItem fromDate item).link = "")
    ∧ (findChild item "description" = none →
        (extractItem fromDate item).description = "")
    ∧ (item.tag = "item" →
        parseRecords fromDate (feedRoot [item]) ARTICLE_LIMIT
          = [extractItem fromDate item]) := by
  refine ⟨fun h => ?_, fun h => ?_, fun h => ?_, fun htag => ?_⟩
  · show htmlEscape (pyStrip (findtext item "title")) = ""
    rw [findtext, h]
    rfl
  · show htmlEscape (pyStrip (findtext item "link")) = ""
    rw [findtext, h]
    rfl
  · show htmlEscape (pyStrip (findtext item "description")) = ""
    rw [findtext, h]
    rfl
  · cases item with
    | mk t a x ch =>
      simp only [XMLElem.tag] at htag
      subst htag
      simp [parseRecords, findall_channel_item, feedRoot, XMLElem.children,
        XMLElem.tag, extractLoop, ARTICLE_LIMIT]

/-- Witness for C8 at an item with no children. -/
theorem claim_C8_witness :
    (extractItem dpNone itemBare).title = ""
    ∧ (extractItem dpNone itemBare).link = ""
    ∧ (extractItem dpNone itemBare).description = ""
    ∧ parseRecords dpNone (feedRoot [itemBare]) ARTICLE_LIMIT
        = [extractItem dpNone itemBare] :=
  ⟨(claim_C8 dpNone itemBare).1 rfl, (claim_C8 dpNone itemBare).2.1 rfl,
   (claim_C8 dpNone itemBare).2.2.1 rfl, (claim_C8 dpNone itemBare).2.2.2 rfl⟩

/-- Claim C9: although the spec requires a positive limit, for every
well-formed feed with at least one item, parse with limit at most 0 still
returns exactly one record (the first item), because the bound is checked
only after each append. -/
theorem claim_C9 (fromDate : String → Option String) (root : XMLElem)
    (feedBytes : List Nat) (limit : Int) (hl : limit ≤ 0)
    (it : XMLElem) (rest : List XMLElem)
    (hfeed : findall_channel_item root = it :: rest) :
    parse_items (fun _ => some root) fromDate feedBytes limit
      = .ok [extractItem fromDate it] := by
  show Except.ok (parseRecords fromDate root limit) = _
  unfold parseRecords
  rw [hfeed]
  have hcond : ((([] : List ArticleRecord)
      ++ [extractItem fromDate it]).length : Int) ≥ limit := by
    simp
    omega
  simp only [extractLoop]
  rw [if_pos hcond]
  simp

/-- Witness for C9: a two-item feed with limit 0 yields the first record. -/
theorem claim_C9_witness :
    parse_items (fun _ => some (feedRoot [itemBare, itemAmp])) dpNone [] 0
      = .ok [extractItem dpNone itemBare] :=
  claim_C9 dpNone (feedRoot [itemBare, itemAmp]) [] 0 (by decide)
    itemBare [itemAmp] rfl

/-- Claim C10: title, link and description equal the HTML-escaping of the
source text with surrounding whitespace stripped, while the date fallback
and the image URL are escaped without stripping: whitespace normalization
applies to exactly those three fields. -/
theorem claim_C10 (fromDate : String → Option String) (item : XMLElem) :
    (extractItem fromDate item).title = htmlEscape (pyStrip (findtext item "title"))
    ∧ (extractItem fromDate item).link = htmlEscape (pyStrip (findtext item "link"))
    ∧ (extractItem fromDate item).description
        = htmlEscape (pyStrip (findtext item "description"))
    ∧ (fromDate (findtext item "pubDate") = none →
        (extractItem fromDate item).date = htmlEscape (findtext item "pubDate"))
    ∧ (∀ s, fromDate (findtext item "pubDate") = some s →
        (extractItem fromDate item).date = htmlEscape s)
    ∧ (∀ mc u, findChild item "media:content" = some mc →
        attrGet mc "url" = some u → u ≠ "" →
        (extractItem fromDate item).image = some (htmlEscape u)) := by
  refine ⟨rfl, rfl, rfl, fun h => ?_, fun s h => ?_, fun mc u hmc hurl hu => ?_⟩
  · simp [extractItem, h]
  · simp [extractItem, h]
  · simp [extractItem, hmc, hurl, hu]

/-- Witness for C10: the whitespace-padded failing date is escaped without
stripping, and differs from what stripping would have produced. -/
theorem claim_C10_witness :
    (extractItem dpNone itemWS).date = htmlEscape (findtext itemWS "pubDate")
    ∧ (extractItem dpNone itemWS).date = " x "
    ∧ (extractItem dpNone itemWS).date
        ≠ htmlEscape (pyStrip (findtext itemWS "pubDate")) :=
  ⟨(claim_C10 dpNone itemWS).2.2.2.1 rfl, by decide, by decide⟩

theorem subStr_mid (p q s : String) : SubStr s (p ++ s ++ q) := ⟨p, q, rfl⟩

theorem subStr_empty (s : String) : SubStr "" s := by
  refine ⟨"", s, ?_⟩
  cases s with
  | mk d =>
    show String.mk d = String.mk (([] ++ []) ++ d)
    simp

theorem subStr_card_doc (items : List ArticleRecord) (lang : String)
    (r : ArticleRecord) (hr : r ∈ items) (f line : String)
    (hmem : line ∈ cardLines (lang == "fa") r) (hsub : SubStr f line) :
    SubStr f (build_html items lang) := by
  have h1 : SubStr line (build_card (lang == "fa") r) :=
    subStr_join "\n" (cardLines (lang == "fa") r) line hmem
  have h2 : SubStr (build_card (lang == "fa") r)
      (joinSep "\n" (items.map (build_card (lang == "fa")))) :=
    subStr_join "\n" _ _ (List.mem_map.mpr ⟨r, hr, rfl⟩)
  have h3 := subStr_trans (subStr_trans hsub h1) h2
  show SubStr f (pageHead (lang == "fa")
    ++ joinSep "\n" (items.map (build_card (lang == "fa")))
    ++ pageTail (lang == "fa"))
  exact subStr_appR _ (subStr_appL _ h3)

/-- Claim C3: every textual field of a record built by the parser is
HTML-escaped exactly once at extraction time, so no field contains an
unescaped markup-significant character (no angle bracket or quote at all,
every ampersand opening an escape entity), and the renderer never escapes
again: the rendered document contains each record's field strings
verbatim, so rendering introduces no doubled escape sequences. -/
theorem claim_C3 (fromDate : String → Option String) (item : XMLElem)
    (items : List ArticleRecord) (lang : String) (r : ArticleRecord)
    (hr : r ∈ items) :
    noRawMarkup (extractItem fromDate item).title = true
    ∧ noRawMarkup (extractItem fromDate item).link = true
    ∧ noRawMarkup (extractItem fromDate item).description = true
    ∧ noRawMarkup (extractItem fromDate item).date = true
    ∧ (∀ u, (extractItem fromDate item).image = some u → noRawMarkup u = true)
    ∧ SubStr r.title (build_html items lang)
    ∧ SubStr r.date (build_html items lang)
    ∧ SubStr r.description (build_html items lang)
    ∧ SubStr r.link (build_html items lang)
    ∧ (∀ u, r.image = some u → SubStr u (build_html items lang)) := by
  refine ⟨noRawMarkup_htmlEscape _, noRawMarkup_htmlEscape _,
    noRawMarkup_htmlEscape _, noRawMarkup_htmlEscape _, ?_, ?_, ?_, ?_, ?_, ?_⟩
  · intro u hu
    rcases hmc : findChild item "media:content" with _ | mc
    · simp [extractItem, hmc] at hu
    · rcases hurl : attrGet mc "url" with _ | u0
      · simp [extractItem, hmc, hurl] at hu
      · by_cases hu0 : u0 = ""
        · simp [extractItem, hmc, hurl, hu0] at hu
        · simp [extractItem, hmc, hurl, hu0] at hu
          subst hu
          exact noRawMarkup_htmlEscape _
  · exact subStr_card_doc items lang r hr r.title
      ("<h5 class=\"card-title\">" ++ r.title ++ "</h5>")
      (by simp [cardLines]) (subStr_mid _ _ _)
  · exact subStr_card_doc items lang r hr r.date
      ("<p class=\"card-text small text-muted\">" ++ r.date ++ "</p>")
      (by simp [cardLines]) (subStr_mid _ _ _)
  · exact subStr_card_doc items lang r hr r.description
      ("<p class=\"card-text\">" ++ r.description ++ "</p>")
      (by simp [cardLines]) (subStr_mid _ _ _)
  · exact subStr_card_doc items lang r hr r.link
      ("<a href=\"" ++ r.link ++ "\" target=\"_blank\" class=\"btn btn-primary btn-sm\">"
        ++ ctaLabel (lang == "fa") ++ "</a>")
      (by simp [cardLines])
      (subStr_appR "</a>" (subStr_appR (ctaLabel (lang == "fa"))
        (subStr_mid "<a href=\""
          "\" target=\"_blank\" class=\"btn btn-primary btn-sm\">" r.link)))
  · intro u hu
    by_cases hu0 : u = ""
    · subst hu0
      exact subStr_empty _
    · refine subStr_card_doc items lang r hr u
        ("<img src=\"" ++ u ++ "\" class=\"card-img-top\" alt=\"News image\">")
        ?_ ?_
      · simp [cardLines, imgLines, hu, hu0]
      · exact subStr_mid "<img src=\""
          "\" class=\"card-img-top\" alt=\"News image\">" u

/-- Witness for C3 at a concrete item and a one-record sequence. -/
theorem claim_C3_witness :
    noRawMarkup (extractItem dpNone itemFull).title = true
    ∧ SubStr (extractItem dpNone itemFull).title
        (build_html [extractItem dpNone itemFull] "en")
    ∧ SubStr (htmlEscape "http://x/i.jpg")
        (build_html [extractItem dpNone itemFull] "en") :=
  ⟨(claim_C3 dpNone itemFull [extractItem dpNone itemFull] "en"
      (extractItem dpNone itemFull) (List.mem_singleton.mpr rfl)).1,
   (claim_C3 dpNone itemFull [extractItem dpNone itemFull] "en"
      (extractItem dpNone itemFull)
      (List.mem_singleton.mpr rfl)).2.2.2.2.2.1,
   (claim_C3 dpNone itemFull [extractItem dpNone itemFull] "en"
      (extractItem dpNone itemFull)
      (List.mem_singleton.mpr rfl)).2.2.2.2.2.2.2.2.2
      (htmlEscape "http://x/i.jpg") rfl⟩

set_option maxRecDepth 100000 in
/-- Claim C4 counterexample: the claim requires the locale-switch link of
each rendered news document to reference the other locale's companion news
page (news-fa.html from the English page, news.html from the Farsi page);
the rendered documents do not contain those filenames anywhere, so the
switch link cannot reference them. -/
theorem claim_C4_counterexample :
    strHas (build_html [] "en") "news-fa.html" = false
    ∧ strHas (build_html [] "fa") "news.html" = false := by
  constructor
  · decide
  · decide

/-- Claim C4 (amended): rendering with the Farsi locale produces a document
whose direction attribute is rtl and language attribute fa, rendering with
the English locale produces ltr and en, and the navigation's locale-switch
link references the other locale's home page (index.html from the Farsi
document, index-fa.html from the English document) rather than the
companion news page filename. -/
theorem claim_C4_amended (items : List ArticleRecord) :
    SubStr "<html lang=\"fa\" dir=\"rtl\">" (build_html items "fa")
    ∧ SubStr "<html lang=\"en\" dir=\"ltr\">" (build_html items "en")
    ∧ SubStr "<li class=\"nav-item\"><a class=\"nav-link\" href=\"index.html\">English</a></li>"
        (build_html items "fa")
    ∧ SubStr "<li class=\"nav-item\"><a class=\"nav-link\" href=\"index-fa.html\">فارسی</a></li>"
        (build_html items "en") := by
  refine ⟨?_, ?_, ?_, ?_⟩
  · show SubStr _ (pageHead ("fa" == "fa")
      ++ joinSep "\n" (items.map (build_card ("fa" == "fa")))
      ++ pageTail ("fa" == "fa"))
    exact subStr_appR _ (subStr_appR _
      (strHas_subStr (pageHead ("fa" == "fa")) _ (by decide)))
  · show SubStr _ (pageHead ("en" == "fa")
      ++ joinSep "\n" (items.map (build_card ("en" == "fa")))
      ++ pageTail ("en" == "fa"))
    exact subStr_appR _ (subStr_appR _
      (strHas_subStr (pageHead ("en" == "fa")) _ (by decide)))
  · show SubStr _ (pageHead ("fa" == "fa")
      ++ joinSep "\n" (items.map (build_card ("fa" == "fa")))
      ++ pageTail ("fa" == "fa"))
    exact subStr_appR _ (subStr_appR _
      (strHas_subStr (pageHead ("fa" == "fa")) _ (by decide)))
  · show SubStr _ (pageHead ("en" == "fa")
      ++ joinSep "\n" (items.map (build_card ("en" == "fa")))
      ++ pageTail ("en" == "fa"))
    exact subStr_appR _ (subStr_appR _
      (strHas_subStr (pageHead ("en" == "fa")) _ (by decide)))

/-- Claim C6: an item with no thumbnail-extension element (or whose first
such element has no url attribute) yields a record with an absent image
field, and for every record with an absent image field the renderer emits
no image line in that record's card fragment. -/
theorem claim_C6 (fromDate : String → Option String) (item : XMLElem)
    (rtl : Bool)
    (h : findChild item "media:content" = none
       ∨ ∃ mc, findChild item "media:content" = some mc ∧ attrGet mc "url" = none) :
    (extractItem fromDate item).image = none
    ∧ ∀ r : ArticleRecord, r.image = none →
        cardLines rtl r =
          ["<div class=\"col-md-6 col-lg-4 mb-4\">",
           "<div class=\"card h-100 shadow-sm\">",
           "<div class=\"card-body\">",
           "<h5 class=\"card-title\">" ++ r.title ++ "</h5>",
           "<p class=\"card-text small text-muted\">" ++ r.date ++ "</p>",
           "<p class=\"card-text\">" ++ r.description ++ "</p>",
           "<a href=\"" ++ r.link ++ "\" target=\"_blank\" class=\"btn btn-primary btn-sm\">"
             ++ ctaLabel rtl ++ "</a>",
           "</div>", "</div>", "</div>"] := by
  constructor
  · rcases h with h | ⟨mc, hmc, hurl⟩
    · simp [extractItem, h]
    · simp [extractItem, hmc, hurl]
  · intro r hrimg
    simp [cardLines, imgLines, hrimg]

/-- Witness for C6 at an item without a thumbnail element. -/
theorem claim_C6_witness :
    (extractItem dpNone itemBare).image = none :=
  (claim_C6 dpNone itemBare false (Or.inl rfl)).1
